import Mathlib

/-!
Shallow embedding of the hypr-exiled trade-manager core: the X11
window-manager backend (package `wm`), the application lifecycle
(package `app`), and the trade registry contract.  External effects
(`exec.Command`, notifier, sleeps, signals) are modelled by explicit
environments and event traces.
-/

namespace Wm

/-- A window handle as produced by `FindWindow`: an opaque backend ID
and the matched class name. -/
structure Window where
  ID : String
  Class : String
  deriving Repr, DecidableEq

/-- The character set trimmed by Go's `strings.TrimSpace`
(`unicode.IsSpace`). -/
def goIsSpace (c : Char) : Bool :=
  c = ' ' || c = '\t' || c = '\n' || c = '\x0b' || c = '\x0c' || c = '\r' ||
  c = '\x85' || c = '\xa0'

/-- Go `strings.TrimSpace`: drop leading and trailing whitespace. -/
def goTrimSpace (s : String) : String :=
  ⟨((s.data.dropWhile goIsSpace).reverse.dropWhile goIsSpace).reverse⟩

/-- Go `strings.Split(s, "\n")[0]`: the prefix of `s` before the first
newline (the whole of `s` when it has none). -/
def firstLine (s : String) : String :=
  ⟨s.data.takeWhile (fun c => c ≠ '\n')⟩

/-- Environment abstracting the `xdotool` invocations made through
`exec.Command`.  `search c = some out` means `xdotool search --class c`
exited successfully with output `out`; `none` means it failed.
`getwindowname id = some t` means `xdotool getwindowname id` succeeded
with title `t`.  `windowactivate id = true` means
`xdotool windowactivate id` succeeded. -/
structure X11Env where
  search : String → Option String
  getwindowname : String → Option String
  windowactivate : String → Bool

/-- The X11 backend type (`type X11 struct{}`). -/
structure X11 where
  deriving Repr, DecidableEq

/-- `NewX11`: checks that the `xdotool` binary is on the path
(`exec.LookPath`) and fails construction if it is absent.  The wrapped
OS error text is abstracted away; only the fixed message prefix is kept. -/
def NewX11 (lookPath : String → Bool) : Except String X11 :=
  if lookPath "xdotool" then
    Except.ok {}
  else
    Except.error "xdotool is required for X11 support but was not found"

/-- `X11.FindWindow`: walks the candidate class list; for each class it
runs `xdotool search --class`, deems the class matched when the command
succeeds with non-empty output, takes the first output line as the
window ID, and returns the window only when `xdotool getwindowname`
also succeeds; any failure falls through to the next class.  The second
component is the returned Go `error` (always `nil` in the source). -/
def X11.FindWindow (env : X11Env) : List String → Window × Option String
  | [] => (⟨"", ""⟩, none)
  | c :: rest =>
    match env.search c with
    | some out =>
      if 0 < out.length then
        let windowID := firstLine (goTrimSpace out)
        match env.getwindowname windowID with
        | some _ => (⟨windowID, c⟩, none)
        | none => X11.FindWindow env rest
      else
        X11.FindWindow env rest
    | none => X11.FindWindow env rest

/-- A class "matches" in `FindWindow`'s sense when the search command
succeeds with non-empty output. -/
def X11.classMatches (env : X11Env) (c : String) : Bool :=
  match env.search c with
  | some out => 0 < out.length
  | none => false

/-- Observable steps taken by `FocusWindow`. -/
inductive WMEvent where
  | execWindowActivate (id : String)
  | sleepMs (ms : Nat)
  deriving Repr, DecidableEq

/-- `X11.FocusWindow`: rejects an empty window ID before any backend
call; otherwise runs `xdotool windowactivate`, wraps its failure, and on
success sleeps 100 ms before returning.  First component is the returned
Go `error`, second the trace of external actions in order. -/
def X11.FocusWindow (env : X11Env) (w : Window) : Option String × List WMEvent :=
  if w.ID = "" then
    (some "cannot focus window: no window ID provided", [])
  else if env.windowactivate w.ID then
    (none, [WMEvent.execWindowActivate w.ID, WMEvent.sleepMs 100])
  else
    (some "failed to focus window", [WMEvent.execWindowActivate w.ID])

end Wm

namespace App

/-- Notification severities (`notify.Info`, `notify.Error`). -/
inductive Severity where
  | info
  | error
  deriving Repr, DecidableEq

/-- Lifecycle states of a trade entry (spec section 4.2). -/
inductive TradeState where
  | new
  | active
  | completed
  | expired
  | cancelled
  deriving Repr, DecidableEq

/-- Terminal states admit no further transition. -/
def TradeState.isTerminal : TradeState → Bool
  | TradeState.completed => true
  | TradeState.expired => true
  | TradeState.cancelled => true
  | _ => false

/-- `models.TradeEntry` (fields per spec section 3; timestamps as
seconds). -/
structure TradeEntry where
  ID : Nat
  PlayerName : String
  ItemName : String
  RawLine : String
  ReceivedAt : Nat
  State : TradeState
  deriving Repr, DecidableEq

/-- Parsed log-line data handed to `AddTrade` (no ID or state yet). -/
structure TradeData where
  PlayerName : String
  ItemName : String
  RawLine : String
  ReceivedAt : Nat
  deriving Repr, DecidableEq

/-- Modelled from the spec: the coarse dedup time-bucket width.  The
spec leaves the width unspecified (section 9, open questions); a fixed
default of 60 seconds is chosen here. -/
def bucketWidth : Nat := 60

/-- Modelled from the spec: the dedup key is player name + item name +
coarse time bucket (spec section 4.2). -/
def dedupKey (player item : String) (receivedAt : Nat) : String × String × Nat :=
  (player, item, receivedAt / bucketWidth)

/-- The dedup key of a stored entry. -/
def TradeEntry.key (e : TradeEntry) : String × String × Nat :=
  dedupKey e.PlayerName e.ItemName e.ReceivedAt

/-- Modelled from the spec: the trade registry state.  The source of
`trade_manager.TradeManager` is not in the repository snapshot; only
its contract is specified (spec sections 3 and 4.2). -/
structure TradeManager where
  entries : List TradeEntry
  nextID : Nat
  deriving Repr, DecidableEq

/-- Outcome of `AddTrade` (spec: `success|duplicate-ignored`; a
duplicate hit is not an error). -/
inductive AddOutcome where
  | success
  | duplicateIgnored
  deriving Repr, DecidableEq

/-- Modelled from the spec: `AddTrade` computes the dedup key from the
parsed data; if an entry with the same key already exists in a
non-terminal state the call is a no-op reporting `duplicateIgnored`;
otherwise a fresh entry in state `new` is appended (spec section 4.2). -/
def TradeManager.AddTrade (m : TradeManager) (d : TradeData) :
    TradeManager × AddOutcome :=
  let key := dedupKey d.PlayerName d.ItemName d.ReceivedAt
  if m.entries.any (fun e => e.key = key ∧ e.State.isTerminal = false) then
    (m, AddOutcome.duplicateIgnored)
  else
    ({ entries := m.entries ++
        [{ ID := m.nextID, PlayerName := d.PlayerName, ItemName := d.ItemName,
           RawLine := d.RawLine, ReceivedAt := d.ReceivedAt,
           State := TradeState.new }],
       nextID := m.nextID + 1 },
     AddOutcome.success)

/-- Observable steps taken by the application lifecycle functions. -/
inductive AppEvent where
  | notifyShow (msg : String) (sev : Severity)
  | newTradeManagerCall
  | newLogWatcherCall
  | spawnWatch
  | waitSignal
  | stopLogWatcher
  deriving Repr, DecidableEq

/-- Environment for `NewPOEHelper`: binary lookup (`exec.LookPath`) and
the outcome of `poe_log.NewLogWatcher` (whose source is outside the
snapshot, so only success/failure is modelled). -/
structure AppEnv where
  lookPath : String → Bool
  newLogWatcher : Except String Unit

/-- The `POEHelper` state relevant to the lifecycle claims: whether the
`poeLogWatcher` field is non-nil. -/
structure POEHelper where
  hasLogWatcher : Bool
  deriving Repr, DecidableEq

/-- The dependency list checked at startup (`deps := []string{"rofi"}`). -/
def depsList : List String := ["rofi"]

/-- The loop body of `checkDependencies`: first missing binary yields
the error. -/
def checkDependenciesOn (lookPath : String → Bool) : List String → Option String
  | [] => none
  | d :: rest =>
    if lookPath d then
      checkDependenciesOn lookPath rest
    else
      some (d ++ " is not installed. Please install it using your package manager")

/-- `checkDependencies`: checks each required binary with
`exec.LookPath`, returning an error on the first one missing. -/
def checkDependencies (lookPath : String → Bool) : Option String :=
  checkDependenciesOn lookPath depsList

/-- `NewPOEHelper`: on a failed dependency check it notifies the error
and returns it before the trade manager or log watcher are created; on
a log-watcher construction failure it wraps the error; otherwise it
returns a helper holding the watcher.  Second component is the ordered
trace of construction effects. -/
def NewPOEHelper (env : AppEnv) : Except String POEHelper × List AppEvent :=
  match checkDependencies env.lookPath with
  | some err =>
    (Except.error err, [AppEvent.notifyShow err Severity.error])
  | none =>
    match env.newLogWatcher with
    | Except.error e =>
      (Except.error ("failed to initialize log watcher: " ++ e),
       [AppEvent.newTradeManagerCall, AppEvent.newLogWatcherCall])
    | Except.ok _ =>
      (Except.ok { hasLogWatcher := true },
       [AppEvent.newTradeManagerCall, AppEvent.newLogWatcherCall])

/-- `POEHelper.Stop`: stops the log watcher only when the reference is
non-nil, and always returns `nil`.  First component is the returned Go
`error`, second the trace. -/
def POEHelper.Stop (p : POEHelper) : Option String × List AppEvent :=
  (none, if p.hasLogWatcher then [AppEvent.stopLogWatcher] else [])

/-- `waitForShutdown`: blocks until SIGINT or SIGTERM arrives; modelled
as the single observable event of the signal being received. -/
def waitForShutdown : List AppEvent := [AppEvent.waitSignal]

/-- `POEHelper.Run`: shows the startup notification, spawns the watch
goroutine, blocks in `waitForShutdown`, then returns `p.Stop()`. -/
def POEHelper.Run (p : POEHelper) : Option String × List AppEvent :=
  ((p.Stop).1,
   AppEvent.notifyShow "POE Helper started" Severity.info ::
     AppEvent.spawnWatch :: waitForShutdown ++ (p.Stop).2)

/-- Log records emitted by `handleTradeEntry`. -/
inductive LogEvent where
  | logError (msg : String)
  deriving Repr, DecidableEq

/-- `POEHelper.handleTradeEntry`: forwards the entry to
`TradeManager.AddTrade` (here abstracted as a fallible `addTrade`
function) and, when that fails, only logs the error; the callback
itself returns nothing and cannot fail. -/
def handleTradeEntry (addTrade : TradeEntry → Except String Unit)
    (entry : TradeEntry) : List LogEvent :=
  match addTrade entry with
  | Except.error e => [LogEvent.logError e]
  | Except.ok _ => []

/-- Modelled from the spec: the Log Watcher's read loop (its source is
outside the snapshot) invokes the registered callback once per parsed
line, in order (spec section 4.3). -/
def watcherLoop (addTrade : TradeEntry → Except String Unit) :
    List TradeEntry → List LogEvent
  | [] => []
  | e :: rest => handleTradeEntry addTrade e ++ watcherLoop addTrade rest

end App

/-- Concrete X11 environment for tests: only class `GameWindow` has a
window, titles resolve, activation succeeds. -/
def envGame : Wm.X11Env where
  search := fun c => if c = "GameWindow" then some "123\n" else none
  getwindowname := fun _ => some "Path of Exile"
  windowactivate := fun _ => true

/-- Concrete X11 environment for tests: class `A` has a window but the
title query fails for every ID. -/
def envNoTitle : Wm.X11Env where
  search := fun c => if c = "A" then some "123\n456\n" else none
  getwindowname := fun _ => none
  windowactivate := fun _ => false

/-- Concrete application environment for tests: no binary is on the
path. -/
def envNoBinaries : App.AppEnv where
  lookPath := fun _ => false
  newLogWatcher := Except.ok ()

/-- Concrete stored trade entry for tests. -/
def sampleEntry : App.TradeEntry where
  ID := 0
  PlayerName := "Alice"
  ItemName := "Chaos Orb"
  RawLine := "@From Alice: buying your Chaos Orb"
  ReceivedAt := 30
  State := App.TradeState.new

/-- Concrete registry for tests, holding `sampleEntry`. -/
def sampleManager : App.TradeManager where
  entries := [sampleEntry]
  nextID := 1

/-- Concrete parsed line for tests, in `sampleEntry`'s dedup bucket. -/
def sampleData : App.TradeData where
  PlayerName := "Alice"
  ItemName := "Chaos Orb"
  RawLine := "@From Alice: buying your Chaos Orb please"
  ReceivedAt := 59

/-! ## Helper lemmas about `X11.FindWindow` -/

theorem findWindow_cons_search_fail (env : Wm.X11Env) (c : String)
    (rest : List String) (hs : env.search c = none) :
    Wm.X11.FindWindow env (c :: rest) = Wm.X11.FindWindow env rest := by
  simp [Wm.X11.FindWindow, hs]

theorem findWindow_cons_empty_out (env : Wm.X11Env) (c out : String)
    (rest : List String) (hs : env.search c = some out)
    (hlen : ¬ 0 < out.length) :
    Wm.X11.FindWindow env (c :: rest) = Wm.X11.FindWindow env rest := by
  simp [Wm.X11.FindWindow, hs, hlen]

theorem findWindow_cons_no_title (env : Wm.X11Env) (c out : String)
    (rest : List String) (hs : env.search c = some out)
    (hlen : 0 < out.length)
    (hg : env.getwindowname (Wm.firstLine (Wm.goTrimSpace out)) = none) :
    Wm.X11.FindWindow env (c :: rest) = Wm.X11.FindWindow env rest := by
  simp [Wm.X11.FindWindow, hs, hlen, hg]

theorem findWindow_cons_found (env : Wm.X11Env) (c out t : String)
    (rest : List String) (hs : env.search c = some out)
    (hlen : 0 < out.length)
    (hg : env.getwindowname (Wm.firstLine (Wm.goTrimSpace out)) = some t) :
    Wm.X11.FindWindow env (c :: rest) =
      (⟨Wm.firstLine (Wm.goTrimSpace out), c⟩, none) := by
  simp [Wm.X11.FindWindow, hs, hlen, hg]

theorem findWindow_error_nil (env : Wm.X11Env) (cs : List String) :
    (Wm.X11.FindWindow env cs).2 = none := by
  induction cs with
  | nil => rfl
  | cons c rest ih =>
    cases hs : env.search c with
    | none => rw [findWindow_cons_search_fail env c rest hs]; exact ih
    | some out =>
      by_cases hlen : 0 < out.length
      · cases hg : env.getwindowname (Wm.firstLine (Wm.goTrimSpace out)) with
        | none => rw [findWindow_cons_no_title env c out rest hs hlen hg]; exact ih
        | some t => rw [findWindow_cons_found env c out t rest hs hlen hg]
      · rw [findWindow_cons_empty_out env c out rest hs hlen]; exact ih

/-- C1: for an ordered class list, `FindWindow` returns a window whose
`Class` is the first class with a matching window (search success with
non-empty output), with a `nil` error; when no class matches it returns
the empty "not found" window, again with a `nil` error.  The backend is
assumed healthy: title queries succeed for existing windows. -/
theorem findWindow_first_matching_class (env : Wm.X11Env)
    (hgood : ∀ id, (env.getwindowname id).isSome = true)
    (cs : List String) :
    (∀ c, cs.find? (Wm.X11.classMatches env) = some c →
      (Wm.X11.FindWindow env cs).1.Class = c ∧
        (Wm.X11.FindWindow env cs).2 = none) ∧
    (cs.find? (Wm.X11.classMatches env) = none →
      Wm.X11.FindWindow env cs = (⟨"", ""⟩, none)) := by
  induction cs with
  | nil =>
    refine ⟨fun c hc => by simp [List.find?] at hc, fun _ => rfl⟩
  | cons c rest ih =>
    cases hs : env.search c with
    | none =>
      have hm : Wm.X11.classMatches env c = false := by
        simp [Wm.X11.classMatches, hs]
      rw [findWindow_cons_search_fail env c rest hs]
      constructor
      · intro c0 hc
        rw [List.find?_cons, hm] at hc
        exact ih.1 c0 hc
      · intro hc
        rw [List.find?_cons, hm] at hc
        exact ih.2 hc
    | some out =>
      by_cases hlen : 0 < out.length
      · have hm : Wm.X11.classMatches env c = true := by
          simp [Wm.X11.classMatches, hs, hlen]
        have hsome := hgood (Wm.firstLine (Wm.goTrimSpace out))
        cases hg : env.getwindowname (Wm.firstLine (Wm.goTrimSpace out)) with
        | none => rw [hg] at hsome; simp at hsome
        | some t =>
          rw [findWindow_cons_found env c out t rest hs hlen hg]
          constructor
          · intro c0 hc
            rw [List.find?_cons, hm] at hc
            cases hc
            exact ⟨rfl, rfl⟩
          · intro hc
            rw [List.find?_cons, hm] at hc
            cases hc
      · have hm : Wm.X11.classMatches env c = false := by
          simp [Wm.X11.classMatches, hs, hlen]
        rw [findWindow_cons_empty_out env c out rest hs hlen]
        constructor
        · intro c0 hc
          rw [List.find?_cons, hm] at hc
          exact ih.1 c0 hc
        · intro hc
          rw [List.find?_cons, hm] at hc
          exact ih.2 hc

/-- Witness for C1 at the spec's own example: with classes
`["GameWindowV2", "GameWindow"]` and only `GameWindow` existing, the
returned window has `Class = "GameWindow"` and the error is `nil`. -/
theorem findWindow_first_matching_class_witness :
    (Wm.X11.FindWindow envGame ["GameWindowV2", "GameWindow"]).1.Class =
        "GameWindow" ∧
      (Wm.X11.FindWindow envGame ["GameWindowV2", "GameWindow"]).2 = none :=
  (findWindow_first_matching_class envGame (fun _ => rfl)
      ["GameWindowV2", "GameWindow"]).1 "GameWindow" (by decide)

/-- C8: `FindWindow` never returns a non-nil error, and a backend
failure to retrieve the title of an otherwise matching class is treated
exactly like no match for that class (the search falls through to the
remaining classes). -/
theorem findWindow_no_error_title_failure_skips (env : Wm.X11Env)
    (c out : String) (rest : List String)
    (hs : env.search c = some out) (hlen : 0 < out.length)
    (hg : env.getwindowname (Wm.firstLine (Wm.goTrimSpace out)) = none) :
    Wm.X11.FindWindow env (c :: rest) = Wm.X11.FindWindow env rest ∧
    ∀ cs, (Wm.X11.FindWindow env cs).2 = none :=
  ⟨findWindow_cons_no_title env c out rest hs hlen hg,
   fun cs => findWindow_error_nil env cs⟩

/-- Witness for C8: class `A` has a window but its title query fails;
the class is skipped and no error is produced on any list. -/
theorem findWindow_no_error_title_failure_skips_witness :
    Wm.X11.FindWindow envNoTitle ["A", "B"] =
        Wm.X11.FindWindow envNoTitle ["B"] ∧
      ∀ cs, (Wm.X11.FindWindow envNoTitle cs).2 = none :=
  findWindow_no_error_title_failure_skips envNoTitle "A" "123\n456\n" ["B"]
    (by decide) (by decide) (by decide)

/-- C2: `FocusWindow` on an empty window ID returns the invalid-argument
error with an empty backend trace (no side effect); on a non-empty ID
the first external action is the `windowactivate` backend call. -/
theorem focusWindow_empty_id (env : Wm.X11Env) (w : Wm.Window) :
    (w.ID = "" →
      Wm.X11.FocusWindow env w =
        (some "cannot focus window: no window ID provided", [])) ∧
    (w.ID ≠ "" →
      ((Wm.X11.FocusWindow env w).2).head? =
        some (Wm.WMEvent.execWindowActivate w.ID)) := by
  constructor
  · intro h
    simp [Wm.X11.FocusWindow, h]
  · intro h
    by_cases hact : env.windowactivate w.ID
    · simp [Wm.X11.FocusWindow, h, hact]
    · simp [Wm.X11.FocusWindow, h, hact]

/-- Witness for C2: the empty-ID window is rejected with no backend
call, and a window with ID `"123"` has the backend call attempted. -/
theorem focusWindow_empty_id_witness :
    Wm.X11.FocusWindow envGame ⟨"", ""⟩ =
        (some "cannot focus window: no window ID provided", []) ∧
      ((Wm.X11.FocusWindow envGame ⟨"123", "GameWindow"⟩).2).head? =
        some (Wm.WMEvent.execWindowActivate "123") :=
  ⟨(focusWindow_empty_id envGame ⟨"", ""⟩).1 rfl,
   (focusWindow_empty_id envGame ⟨"123", "GameWindow"⟩).2 (by decide)⟩

/-- C7: on every successful focus the trace is exactly the backend
`windowactivate` call followed by the 100 ms settle sleep, and only then
does the function return (with a `nil` error): the delay sits between
the backend call and the return. -/
theorem focusWindow_settle_delay (env : Wm.X11Env) (w : Wm.Window)
    (hid : w.ID ≠ "") (hact : env.windowactivate w.ID = true) :
    Wm.X11.FocusWindow env w =
      (none, [Wm.WMEvent.execWindowActivate w.ID, Wm.WMEvent.sleepMs 100]) := by
  simp [Wm.X11.FocusWindow, hid, hact]

/-- Witness for C7 at a concrete window and a succeeding backend. -/
theorem focusWindow_settle_delay_witness :
    Wm.X11.FocusWindow envGame ⟨"123", "GameWindow"⟩ =
      (none, [Wm.WMEvent.execWindowActivate "123", Wm.WMEvent.sleepMs 100]) :=
  focusWindow_settle_delay envGame ⟨"123", "GameWindow"⟩ (by decide) rfl

/-- C4: when the `xdotool` helper binary is absent, `NewX11` returns an
error and produces no backend instance: construction itself fails. -/
theorem newX11_missing_helper (lookPath : String → Bool)
    (h : lookPath "xdotool" = false) :
    Wm.NewX11 lookPath =
        Except.error "xdotool is required for X11 support but was not found" ∧
      ∀ x, Wm.NewX11 lookPath ≠ Except.ok x := by
  constructor
  · simp [Wm.NewX11, h]
  · intro x hx
    rw [Wm.NewX11, h] at hx
    simp at hx

/-- Witness for C4 with an empty path. -/
theorem newX11_missing_helper_witness :
    Wm.NewX11 (fun _ => false) =
        Except.error "xdotool is required for X11 support but was not found" ∧
      ∀ x, Wm.NewX11 (fun _ => false) ≠ Except.ok x :=
  newX11_missing_helper (fun _ => false) rfl

/-- C3: when the required `rofi` binary is absent, `NewPOEHelper`
notifies the failure and returns the error; the construction trace shows
the log watcher was neither created nor started. -/
theorem newPOEHelper_missing_dependency (env : App.AppEnv)
    (h : env.lookPath "rofi" = false) :
    App.NewPOEHelper env =
        (Except.error
            "rofi is not installed. Please install it using your package manager",
          [App.AppEvent.notifyShow
            "rofi is not installed. Please install it using your package manager"
            App.Severity.error]) ∧
      App.AppEvent.newLogWatcherCall ∉ (App.NewPOEHelper env).2 ∧
      App.AppEvent.spawnWatch ∉ (App.NewPOEHelper env).2 := by
  have hdep : App.checkDependencies env.lookPath =
      some "rofi is not installed. Please install it using your package manager" := by
    simp [App.checkDependencies, App.checkDependenciesOn, App.depsList, h]
  refine ⟨?_, ?_, ?_⟩ <;>
    simp [App.NewPOEHelper, hdep]

/-- Witness for C3 with no binaries on the path. -/
theorem newPOEHelper_missing_dependency_witness :
    App.NewPOEHelper envNoBinaries =
        (Except.error
            "rofi is not installed. Please install it using your package manager",
          [App.AppEvent.notifyShow
            "rofi is not installed. Please install it using your package manager"
            App.Severity.error]) ∧
      App.AppEvent.newLogWatcherCall ∉ (App.NewPOEHelper envNoBinaries).2 ∧
      App.AppEvent.spawnWatch ∉ (App.NewPOEHelper envNoBinaries).2 :=
  newPOEHelper_missing_dependency envNoBinaries rfl

/-- C5: `AddTrade` is idempotent under the dedup key: when some entry
with the same player/item/time-bucket key is already present in a
non-terminal state, the call leaves the registry unchanged and reports
`duplicateIgnored` (an outcome distinct from an error). -/
theorem addTrade_duplicate_idempotent (m : App.TradeManager)
    (d : App.TradeData) (e : App.TradeEntry) (he : e ∈ m.entries)
    (hkey : e.key = App.dedupKey d.PlayerName d.ItemName d.ReceivedAt)
    (hterm : e.State.isTerminal = false) :
    m.AddTrade d = (m, App.AddOutcome.duplicateIgnored) := by
  have hany : (m.entries.any fun x =>
      x.key = App.dedupKey d.PlayerName d.ItemName d.ReceivedAt ∧
        x.State.isTerminal = false) = true := by
    rw [List.any_eq_true]
    exact ⟨e, he, by simp [hkey, hterm]⟩
  simp only [App.TradeManager.AddTrade, hany, if_true]

/-- Witness for C5: a second raw line from the same player for the same
item within the same minute bucket is collapsed onto the stored entry. -/
theorem addTrade_duplicate_idempotent_witness :
    sampleManager.AddTrade sampleData =
      (sampleManager, App.AddOutcome.duplicateIgnored) :=
  addTrade_duplicate_idempotent sampleManager sampleData sampleEntry
    (by simp [sampleManager]) (by decide) rfl

/-- C6: for a helper holding a log watcher, `Run`'s trace ends with the
shutdown signal being received followed by the watcher being stopped:
after the signal, `Stop` reaches the watcher before `Run` returns. -/
theorem run_signal_then_watcher_stop (p : App.POEHelper)
    (h : p.hasLogWatcher = true) :
    ∃ pre, (p.Run).2 =
      pre ++ [App.AppEvent.waitSignal, App.AppEvent.stopLogWatcher] := by
  refine ⟨[App.AppEvent.notifyShow "POE Helper started" App.Severity.info,
    App.AppEvent.spawnWatch], ?_⟩
  simp [App.POEHelper.Run, App.POEHelper.Stop, App.waitForShutdown, h]

/-- Witness for C6 at the helper produced by a successful startup. -/
theorem run_signal_then_watcher_stop_witness :
    ∃ pre, (App.POEHelper.Run { hasLogWatcher := true }).2 =
      pre ++ [App.AppEvent.waitSignal, App.AppEvent.stopLogWatcher] :=
  run_signal_then_watcher_stop { hasLogWatcher := true } rfl

/-- C9: `Stop` is total and always returns `nil`, and when the watcher
reference is nil the guarded branch is skipped so no watcher call is
made. -/
theorem stop_total_returns_nil (p : App.POEHelper) :
    (p.Stop).1 = none ∧
      (p.hasLogWatcher = false → (p.Stop).2 = []) := by
  constructor
  · rfl
  · intro h
    simp [App.POEHelper.Stop, h]

/-- Witness for C9 at a helper with no watcher. -/
theorem stop_total_returns_nil_witness :
    (App.POEHelper.Stop { hasLogWatcher := false }).1 = none ∧
      (App.POEHelper.Stop { hasLogWatcher := false }).2 = [] :=
  ⟨(stop_total_returns_nil { hasLogWatcher := false }).1,
   (stop_total_returns_nil { hasLogWatcher := false }).2 rfl⟩

/-- C10: when `AddTrade` fails, `handleTradeEntry` only logs the error
and returns normally, so the watcher's read loop continues with the
remaining entries instead of aborting. -/
theorem handleTradeEntry_swallows_error
    (addTrade : App.TradeEntry → Except String Unit)
    (entry : App.TradeEntry) (msg : String)
    (h : addTrade entry = Except.error msg) :
    App.handleTradeEntry addTrade entry = [App.LogEvent.logError msg] ∧
      ∀ rest, App.watcherLoop addTrade (entry :: rest) =
        App.LogEvent.logError msg :: App.watcherLoop addTrade rest := by
  have hh : App.handleTradeEntry addTrade entry =
      [App.LogEvent.logError msg] := by
    simp [App.handleTradeEntry, h]
  exact ⟨hh, fun rest => by simp [App.watcherLoop, hh]⟩

/-- Witness for C10 with an always-failing `AddTrade`. -/
theorem handleTradeEntry_swallows_error_witness :
    App.handleTradeEntry (fun _ => Except.error "registry failure") sampleEntry =
        [App.LogEvent.logError "registry failure"] ∧
      ∀ rest,
        App.watcherLoop (fun _ => Except.error "registry failure")
            (sampleEntry :: rest) =
          App.LogEvent.logError "registry failure" ::
            App.watcherLoop (fun _ => Except.error "registry failure") rest :=
  handleTradeEntry_swallows_error (fun _ => Except.error "registry failure")
    sampleEntry "registry failure" rfl
